import Mathlib

/-!
Verification of the reusable analysis core of the `ziyan_eda_arizona` module:
IQR-based outlier detection, percentile summary statistics, the bucket
classifier, and the variable catalog / narrative selector lookups.

Tables are modelled as lists of rows; each row pairs a county identifier with
an optional rational metric value (`none` models a missing value / NaN in the
source data frame column).  Quantiles use linear interpolation between closest
ranks, matching the pandas default used by `Series.quantile` and
`Series.median`.
-/

namespace EDA

/-- A row of the county metric table: county identifier and optional value.
`none` models a missing (NaN) entry in the source data frame column. -/
structure Row where
  county : String
  value : Option ℚ
deriving DecidableEq, Repr

/-- Models `df[col].dropna()`: the non-missing values of the column, in table order. -/
def dropna (df : List Row) : List ℚ :=
  df.filterMap (fun r => r.value)

/-- Linear interpolation into a sorted list of values at fractional rank `h`:
the value at position `⌊h⌋` plus the fractional part times the gap to the next
value.  This is the pandas "linear" interpolation scheme once `h = p·(n−1)`. -/
def interpAt (v : List ℚ) (h : ℚ) : ℚ :=
  v.getD (⌊h⌋).toNat 0 +
    (h - (((⌊h⌋).toNat : ℕ) : ℚ)) *
      (v.getD ((⌊h⌋).toNat + 1) (v.getD (⌊h⌋).toNat 0) - v.getD (⌊h⌋).toNat 0)

/-- Models `s.quantile(p)` with the default linear interpolation: sort the values and
interpolate at rank `p·(n−1)`. -/
def quantile (l : List ℚ) (p : ℚ) : ℚ :=
  interpAt (l.insertionSort (· ≤ ·)) (p * ((l.length : ℚ) - 1))

/-- The Tukey high-tail cutoff `q3 + 1.5·(q3 − q1)` computed by
`iqr_outliers` over the non-missing values of the column. -/
def iqr_cutoff (s : List ℚ) : ℚ :=
  quantile s (3/4) + (3/2) * (quantile s (3/4) - quantile s (1/4))

/-- Model of `iqr_outliers(df, col)` from `ziyan_eda_arizona.py`: drop missing values;
if nothing remains return the undefined-cutoff sentinel (`none`, modelling
`np.nan`) and an empty table; otherwise the cutoff is `q3 + 1.5·(q3 − q1)` and
the outliers are the rows of the *full* table whose value strictly exceeds the
cutoff (a missing value compares as false, just as `NaN > cutoff` does in the
source). -/
def iqr_outliers (df : List Row) : Option ℚ × List Row :=
  if (dropna df).isEmpty then (none, [])
  else
    (some (iqr_cutoff (dropna df)),
      df.filter (fun r =>
        match r.value with
        | some v => decide (iqr_cutoff (dropna df) < v)
        | none => false))

/-- Computes `s.min()` over a non-empty list (0 as a dummy for the empty list, which
the source never reaches because it returns the sentinel first). -/
def listMin : List ℚ → ℚ
  | [] => 0
  | x :: xs => xs.foldl min x

/-- Computes `s.max()` over a non-empty list. -/
def listMax : List ℚ → ℚ
  | [] => 0
  | x :: xs => xs.foldl max x

/-- The max/min ratio gate of `interpretation_univariate`: computed only when
`vmin > 0`, and exposed only when `1 < r ≤ 10`. -/
def ratioGate (vmin vmax : ℚ) : Option ℚ :=
  if 0 < vmin then
    if 1 < vmax / vmin ∧ vmax / vmin ≤ 10 then some (vmax / vmin) else none
  else none

/-- Models `df.loc[s.sort_values().index, ["county", var]]`: the rows with a
non-missing value, as (county, value) pairs, sorted ascending by value. -/
def sortedPairs (df : List Row) : List (String × ℚ) :=
  (df.filterMap (fun r => r.value.map (fun v => (r.county, v)))).insertionSort
    (fun a b => a.2 ≤ b.2)

/-- The numeric part of the univariate interpretation: the statistics computed
by `interpretation_univariate` before any rendering. -/
structure SummaryResult where
  median : ℚ
  q1 : ℚ
  q3 : ℚ
  vmin : ℚ
  vmax : ℚ
  ratioValue : Option ℚ
  bottom3 : List (String × ℚ)
  top3 : List (String × ℚ)
deriving DecidableEq, Repr

/-- The message written by `interpretation_univariate` when every value of the
requested column is missing. -/
def no_data_message : String := "No data available for this variable."

/-- Model of `interpretation_univariate(var, series, df)` from `ziyan_eda_arizona.py`,
restricted to the data it computes (the narrative dispatch is modelled
separately by `explain`): drop missing values; if nothing remains return the
"no data" sentinel (`none`, in which case the page shows `no_data_message`);
otherwise compute median/Q1/Q3/min/max, the gated max/min ratio, and the
bottom-3 / top-3 rows of the value-sorted table (`head(3)` / `tail(3)`). -/
def interpretation_univariate (df : List Row) : Option SummaryResult :=
  if (dropna df).isEmpty then none
  else
    some
      { median := quantile (dropna df) (1/2)
        q1 := quantile (dropna df) (1/4)
        q3 := quantile (dropna df) (3/4)
        vmin := listMin (dropna df)
        vmax := listMax (dropna df)
        ratioValue := ratioGate (listMin (dropna df)) (listMax (dropna df))
        bottom3 := (sortedPairs df).take 3
        top3 := (sortedPairs df).drop ((sortedPairs df).length - 3) }

/-- Model of `bucket(x)` from `render_exploratory_eda`: `x ≥ q3 → "Top 25%"`, else
`x ≤ q1 → "Bottom 25%"`, else `"Middle"`. -/
def bucket (q1 q3 x : ℚ) : String :=
  if x ≥ q3 then "Top 25%"
  else if x ≤ q1 then "Bottom 25%"
  else "Middle"

/-! Variable catalog. -/

/-- The dictionary `THEME_VARS` from `ziyan_eda_arizona.py`: the theme groupings offered to
the user. -/
def THEME_VARS : List (String × List String) :=
  [("Capacity and access",
      ["hospitals_per_10k", "beds_per_10k", "num_hospitals", "total_capacity"]),
   ("Population and daytime presence",
      ["population_total", "e_daypop_mean"]),
   ("Social barriers",
      ["mp_pov150_mean", "mp_uninsur_mean", "mp_noveh_mean"]),
   ("Heat and climate",
      ["e_heat_risk_mean", "max_temp_2022"])]

/-- The dictionary `VAR_LABELS` from `ziyan_eda_arizona.py`: canonical name → display label. -/
def VAR_LABELS : List (String × String) :=
  [("hospitals_per_10k", "Hospitals per 10k residents"),
   ("beds_per_10k", "Beds per 10k residents"),
   ("num_hospitals", "Number of hospitals"),
   ("population_total", "Total population"),
   ("total_capacity", "Total bed capacity"),
   ("mp_pov150_mean", "Poverty (relative to average)"),
   ("mp_uninsur_mean", "Uninsured (relative to average)"),
   ("mp_noveh_mean", "No-vehicle households (relative to average)"),
   ("e_heat_risk_mean", "Heat risk index"),
   ("max_temp_2022", "Maximum temperature (2022)"),
   ("e_daypop_mean", "Daytime population"),
   ("is_medical_desert", "Medical desert flag")]

/-- Models `VAR_LABELS.get(var, var)`: display label with fallback to the raw
canonical name. -/
def varLabel (v : String) : String :=
  ((VAR_LABELS.find? (fun p => p.1 == v)).map (fun p => p.2)).getD v

/-- The number of themes whose variable list contains `v`. -/
def themeCount (v : String) : ℕ :=
  (THEME_VARS.filter (fun p => p.2.contains v)).length

/-- The number of catalog entries whose key is `v`. -/
def labelCount (v : String) : ℕ :=
  (VAR_LABELS.filter (fun p => p.1 == v)).length

/-- The twelve canonical variable names enumerated by the specification. -/
def CANONICAL_NAMES : List String :=
  ["hospitals_per_10k", "beds_per_10k", "num_hospitals", "population_total",
   "total_capacity", "mp_pov150_mean", "mp_uninsur_mean", "mp_noveh_mean",
   "e_heat_risk_mean", "max_temp_2022", "e_daypop_mean", "is_medical_desert"]

/-! Narrative selector.

The three `if/elif/.../else` dispatch chains of `interpretation_univariate`
("what this variable measures", "why this is relevant", "possible use in a
model"), each ending in a generic fallback branch. -/

/-- The "what this variable measures" dispatch chain. -/
def var_explanation (var : String) : String :=
  if var = "hospitals_per_10k" then
    "Number of hospitals per 10,000 residents in each county. Higher values mean more facilities relative to population."
  else if var = "beds_per_10k" then
    "Number of hospital beds per 10,000 residents. Higher values indicate greater inpatient capacity per person."
  else if var = "num_hospitals" then
    "Total count of hospitals in the county."
  else if var = "population_total" then
    "Estimated resident population in the county."
  else if var = "total_capacity" then
    "Total number of hospital beds across all hospitals in the county."
  else if var = "mp_pov150_mean" ∨ var = "mp_uninsur_mean" ∨ var = "mp_noveh_mean" then
    "These variables are centred around zero and represent relative vulnerability. Values above 0 mean the county has more of this condition than the reference average; values below 0 mean less than average."
  else if var = "e_heat_risk_mean" then
    "Index summarising average heat risk; higher values mean greater heat exposure."
  else if var = "max_temp_2022" then
    "Maximum recorded temperature in 2022 for the county."
  else if var = "e_daypop_mean" then
    "Estimated daytime population, including residents plus commuters and visitors present during the day."
  else
    "County-level summary for the metric shown on the chart."

/-- The "why this is relevant for heat and medical access" dispatch chain. -/
def relevance_text (var : String) : String :=
  if var = "hospitals_per_10k" then
    "Low values indicate potential gaps in facility access. During extreme heat, residents may face longer travel times and delays before reaching care."
  else if var = "beds_per_10k" then
    "Low bed counts per resident suggest limited capacity to admit patients. Counties with both high heat risk and low beds per 10k may overload quickly."
  else if var = "num_hospitals" then
    "Counties with very few hospitals have little redundancy. If one facility is unavailable, options for residents are limited."
  else if var = "population_total" then
    "High-population counties require more infrastructure. If population is high but hospital access metrics are low, the system may be strained."
  else if var = "total_capacity" then
    "Total bed capacity describes the size of the system. Low-capacity counties may struggle to manage larger numbers of heat-related admissions."
  else if var = "mp_pov150_mean" then
    "Positive values indicate more residents near or below the poverty line than average. Financial constraints can limit access to cooling, transport and timely care."
  else if var = "mp_uninsur_mean" then
    "Positive values indicate more uninsured residents than average. Uninsured individuals often delay care, which can worsen outcomes during heat events."
  else if var = "mp_noveh_mean" then
    "Positive values indicate more households without vehicles than average. These residents may find it harder to reach hospitals when they need urgent care."
  else if var = "e_heat_risk_mean" then
    "Higher scores indicate greater exposure to dangerous heat. Counties combining high heat risk with low capacity or high social barriers are of particular concern."
  else if var = "max_temp_2022" then
    "High maximum temperatures increase physiological stress and can trigger more heat-related illness."
  else if var = "e_daypop_mean" then
    "High daytime population means demand for emergency services may be higher than resident population alone suggests."
  else
    "This metric captures one aspect of county-level risk or capacity that interacts with heat conditions."

/-- The "possible use in a machine-learning model" dispatch chain. -/
def model_use_text (var : String) : String :=
  if var = "hospitals_per_10k" ∨ var = "beds_per_10k" ∨ var = "num_hospitals" ∨
      var = "total_capacity" then
    "- These variables summarise health system capacity.\n- In a model predicting heat-related hospitalisations by county, they help explain which counties are more likely to experience strain when demand increases."
  else if var = "mp_pov150_mean" ∨ var = "mp_uninsur_mean" ∨ var = "mp_noveh_mean" then
    "- These variables represent social and economic barriers to care.\n- Using them as features lets the model capture how poverty, insurance and transport affect outcomes, beyond physical capacity alone."
  else if var = "e_heat_risk_mean" ∨ var = "max_temp_2022" then
    "- These are exposure variables that quantify how extreme the heat is.\n- Combined with capacity and vulnerability variables, they help identify counties where high exposure and low access overlap."
  else if var = "population_total" ∨ var = "e_daypop_mean" then
    "- These variables describe the size of the population at risk.\n- They can be used as predictors and also for constructing outcome rates (for example, hospitalisations per 10,000 residents)."
  else
    "- This variable can be included as a county-level feature after appropriate scaling or standardisation."

/-- The narrative text bundle for one variable. -/
structure NarrativeBundle where
  whatItMeasures : String
  whyItMatters : String
  modelingRelevance : String
deriving DecidableEq, Repr

/-- The narrative selector: the three dispatch chains bundled together. -/
def explain (var : String) : NarrativeBundle :=
  ⟨var_explanation var, relevance_text var, model_use_text var⟩

/-- The generic fallback bundle produced by the final `else` branch of each
dispatch chain. -/
def fallbackBundle : NarrativeBundle :=
  ⟨"County-level summary for the metric shown on the chart.",
   "This metric captures one aspect of county-level risk or capacity that interacts with heat conditions.",
   "- This variable can be included as a county-level feature after appropriate scaling or standardisation."⟩

/-! Concrete example tables from the specification. -/

/-- The spec example table `[(A,10),(B,20),(C,30),(D,40),(E,1000)]`. -/
def exOutlier : List Row :=
  [⟨"A", some 10⟩, ⟨"B", some 20⟩, ⟨"C", some 30⟩, ⟨"D", some 40⟩, ⟨"E", some 1000⟩]

/-- The spec example constant table `[(A,5),(B,5),(C,5)]`. -/
def exConstant : List Row :=
  [⟨"A", some 5⟩, ⟨"B", some 5⟩, ⟨"C", some 5⟩]

/-- The spec example single-row table `[(A,7)]`. -/
def exSingle : List Row := [⟨"A", some 7⟩]

/-- The spec example all-missing table `[(A,absent),(B,absent)]`. -/
def exMissing : List Row := [⟨"A", none⟩, ⟨"B", none⟩]

/-- A two-row table used to exhibit top-3/bottom-3 overlap and an exposed
ratio. -/
def exTwo : List Row := [⟨"A", some 1⟩, ⟨"B", some 2⟩]


/-! Order lemmas for the interpolated quantile. -/

theorem sorted_getD_mono {v : List ℚ} (hs : List.Sorted (· ≤ ·) v) {a b : ℕ}
    (hab : a ≤ b) (hb : b < v.length) (d : ℚ) : v.getD a d ≤ v.getD b d := by
  have ha : a < v.length := lt_of_le_of_lt hab hb
  rw [List.getD_eq_getElem v d ha, List.getD_eq_getElem v d hb]
  have h2 := hs.rel_get_of_le (a := (⟨a, ha⟩ : Fin v.length)) (b := ⟨b, hb⟩)
    (by exact hab)
  simpa using h2

theorem getD_le_getD_succ {v : List ℚ} (hs : List.Sorted (· ≤ ·) v) {i : ℕ}
    (hi : i < v.length) : v.getD i 0 ≤ v.getD (i + 1) (v.getD i 0) := by
  by_cases h : i + 1 < v.length
  · rw [List.getD_eq_getElem v _ h, List.getD_eq_getElem v 0 hi]
    have h2 := hs.rel_get_of_le (a := (⟨i, hi⟩ : Fin v.length)) (b := ⟨i + 1, h⟩)
      (by exact Nat.le_succ i)
    simpa using h2
  · rw [List.getD_eq_default v _ (le_of_not_lt h)]

theorem rank_toNat_le {h : ℚ} (h0 : 0 ≤ h) : (((⌊h⌋).toNat : ℕ) : ℚ) ≤ h := by
  have ht : ((⌊h⌋).toNat : ℤ) = ⌊h⌋ := Int.toNat_of_nonneg (Int.floor_nonneg.mpr h0)
  have : (((⌊h⌋).toNat : ℕ) : ℚ) = ((⌊h⌋ : ℤ) : ℚ) := by exact_mod_cast congrArg Int.cast ht
  rw [this]
  exact Int.floor_le h

theorem lt_rank_toNat_add_one {h : ℚ} (h0 : 0 ≤ h) : h < (((⌊h⌋).toNat : ℕ) : ℚ) + 1 := by
  have ht : ((⌊h⌋).toNat : ℤ) = ⌊h⌋ := Int.toNat_of_nonneg (Int.floor_nonneg.mpr h0)
  have : (((⌊h⌋).toNat : ℕ) : ℚ) = ((⌊h⌋ : ℤ) : ℚ) := by exact_mod_cast congrArg Int.cast ht
  rw [this]
  exact Int.lt_floor_add_one h

/-- Linear interpolation into a sorted list is monotone in the rank. -/
theorem interpAt_mono {v : List ℚ} (hs : List.Sorted (· ≤ ·) v) {h h' : ℚ}
    (h0 : 0 ≤ h) (hhh : h ≤ h') (hub : h' ≤ (v.length : ℚ) - 1) :
    interpAt v h ≤ interpAt v h' := by
  have h0' : 0 ≤ h' := le_trans h0 hhh
  have hii : (⌊h⌋).toNat ≤ (⌊h'⌋).toNat := Int.toNat_le_toNat (Int.floor_mono hhh)
  have hfl : ⌊h'⌋ ≤ (v.length : ℤ) - 1 := by
    have h1 : ((v.length : ℚ)) - 1 = (((v.length : ℤ) - 1 : ℤ) : ℚ) := by push_cast; ring
    have h2 : ⌊h'⌋ ≤ ⌊(((v.length : ℤ) - 1 : ℤ) : ℚ)⌋ := Int.floor_mono (by rw [← h1]; exact hub)
    simpa using h2
  have hfl0 : 0 ≤ ⌊h'⌋ := Int.floor_nonneg.mpr h0'
  have hn0 : 1 ≤ v.length := by
    rcases Nat.eq_zero_or_pos v.length with h1 | h1
    · exfalso
      rw [h1] at hub
      norm_num at hub
      linarith
    · exact h1
  have hi'n : (⌊h'⌋).toNat < v.length := by omega
  have gl : (((⌊h⌋).toNat : ℕ) : ℚ) ≤ h := rank_toNat_le h0
  have gu : h < (((⌊h⌋).toNat : ℕ) : ℚ) + 1 := lt_rank_toNat_add_one h0
  have gl' : (((⌊h'⌋).toNat : ℕ) : ℚ) ≤ h' := rank_toNat_le h0'
  simp only [interpAt]
  rcases eq_or_lt_of_le hii with heq | hlt
  · rw [heq]
    rw [heq] at gl gu
    have hl := getD_le_getD_succ hs hi'n
    have expand :
        (v.getD (⌊h'⌋).toNat 0 +
            (h' - (((⌊h'⌋).toNat : ℕ) : ℚ)) *
              (v.getD ((⌊h'⌋).toNat + 1) (v.getD (⌊h'⌋).toNat 0) - v.getD (⌊h'⌋).toNat 0)) -
          (v.getD (⌊h'⌋).toNat 0 +
            (h - (((⌊h'⌋).toNat : ℕ) : ℚ)) *
              (v.getD ((⌊h'⌋).toNat + 1) (v.getD (⌊h'⌋).toNat 0) - v.getD (⌊h'⌋).toNat 0)) =
          (h' - h) *
            (v.getD ((⌊h'⌋).toNat + 1) (v.getD (⌊h'⌋).toNat 0) - v.getD (⌊h'⌋).toNat 0) := by
      ring
    have key :
        0 ≤ (h' - h) *
            (v.getD ((⌊h'⌋).toNat + 1) (v.getD (⌊h'⌋).toNat 0) - v.getD (⌊h'⌋).toNat 0) :=
      mul_nonneg (by linarith) (by linarith)
    linarith [expand, key]
  · have hi1n : (⌊h⌋).toNat + 1 ≤ (⌊h'⌋).toNat := hlt
    have hin : (⌊h⌋).toNat < v.length := lt_trans hlt hi'n
    have hi1 : (⌊h⌋).toNat + 1 < v.length := lt_of_le_of_lt (le_of_eq rfl) (lt_of_le_of_lt hi1n hi'n)
    have hAe : v.getD ((⌊h⌋).toNat + 1) (v.getD (⌊h⌋).toNat 0) = v.getD ((⌊h⌋).toNat + 1) 0 := by
      rw [List.getD_eq_getElem v _ hi1, List.getD_eq_getElem v 0 hi1]
    have hlo1 : v.getD (⌊h⌋).toNat 0 ≤ v.getD ((⌊h⌋).toNat + 1) 0 :=
      sorted_getD_mono hs (Nat.le_succ _) hi1 0
    have stepA :
        v.getD (⌊h⌋).toNat 0 +
            (h - (((⌊h⌋).toNat : ℕ) : ℚ)) *
              (v.getD ((⌊h⌋).toNat + 1) (v.getD (⌊h⌋).toNat 0) - v.getD (⌊h⌋).toNat 0) ≤
          v.getD ((⌊h⌋).toNat + 1) 0 := by
      rw [hAe]
      have expand :
          v.getD ((⌊h⌋).toNat + 1) 0 -
              (v.getD (⌊h⌋).toNat 0 +
                (h - (((⌊h⌋).toNat : ℕ) : ℚ)) *
                  (v.getD ((⌊h⌋).toNat + 1) 0 - v.getD (⌊h⌋).toNat 0)) =
            (1 - (h - (((⌊h⌋).toNat : ℕ) : ℚ))) *
              (v.getD ((⌊h⌋).toNat + 1) 0 - v.getD (⌊h⌋).toNat 0) := by
        ring
      have key :
          0 ≤ (1 - (h - (((⌊h⌋).toNat : ℕ) : ℚ))) *
              (v.getD ((⌊h⌋).toNat + 1) 0 - v.getD (⌊h⌋).toNat 0) :=
        mul_nonneg (by linarith) (by linarith)
      linarith [expand, key]
    have stepB : v.getD ((⌊h⌋).toNat + 1) 0 ≤ v.getD (⌊h'⌋).toNat 0 :=
      sorted_getD_mono hs hi1n hi'n 0
    have hl' := getD_le_getD_succ hs hi'n
    have stepC :
        v.getD (⌊h'⌋).toNat 0 ≤
          v.getD (⌊h'⌋).toNat 0 +
            (h' - (((⌊h'⌋).toNat : ℕ) : ℚ)) *
              (v.getD ((⌊h'⌋).toNat + 1) (v.getD (⌊h'⌋).toNat 0) - v.getD (⌊h'⌋).toNat 0) := by
      have key :
          0 ≤ (h' - (((⌊h'⌋).toNat : ℕ) : ℚ)) *
              (v.getD ((⌊h'⌋).toNat + 1) (v.getD (⌊h'⌋).toNat 0) - v.getD (⌊h'⌋).toNat 0) :=
        mul_nonneg (by linarith) (by linarith)
      linarith [key]
    exact le_trans stepA (le_trans stepB stepC)

/-- The interpolated quantile is monotone in the requested fraction. -/
theorem quantile_mono {l : List ℚ} (hl : l ≠ []) {p p' : ℚ}
    (hp0 : 0 ≤ p) (hpp : p ≤ p') (hp1 : p' ≤ 1) :
    quantile l p ≤ quantile l p' := by
  have hlen : (List.insertionSort (· ≤ ·) l).length = l.length :=
    List.length_insertionSort (· ≤ ·) l
  have hn : 1 ≤ l.length := List.length_pos.mpr hl
  have hn1 : (0:ℚ) ≤ (l.length : ℚ) - 1 := by
    have : (1:ℚ) ≤ (l.length : ℚ) := by exact_mod_cast hn
    linarith
  refine interpAt_mono (List.sorted_insertionSort (· ≤ ·) l) ?_ ?_ ?_
  · exact mul_nonneg hp0 hn1
  · exact mul_le_mul_of_nonneg_right hpp hn1
  · rw [hlen]
    nlinarith

theorem quantile_exOutlier_q1 : quantile [10, 20, 30, 40, 1000] (1/4) = 20 := by
  rw [quantile,
    show List.insertionSort (fun a b => a ≤ b) [(10:ℚ), 20, 30, 40, 1000] =
      [10, 20, 30, 40, 1000] from rfl]
  norm_num [interpAt, show Int.toNat 1 = 1 from rfl]

theorem quantile_exOutlier_med : quantile [10, 20, 30, 40, 1000] (1/2) = 30 := by
  rw [quantile,
    show List.insertionSort (fun a b => a ≤ b) [(10:ℚ), 20, 30, 40, 1000] =
      [10, 20, 30, 40, 1000] from rfl]
  norm_num [interpAt, show Int.toNat 2 = 2 from rfl]

theorem quantile_exOutlier_q3 : quantile [10, 20, 30, 40, 1000] (3/4) = 40 := by
  rw [quantile,
    show List.insertionSort (fun a b => a ≤ b) [(10:ℚ), 20, 30, 40, 1000] =
      [10, 20, 30, 40, 1000] from rfl]
  norm_num [interpAt, show Int.toNat 3 = 3 from rfl]

theorem quantile_exConstant_q1 : quantile [5, 5, 5] (1/4) = 5 := by
  rw [quantile,
    show List.insertionSort (fun a b => a ≤ b) [(5:ℚ), 5, 5] = [5, 5, 5] from rfl]
  norm_num [interpAt]

theorem quantile_exConstant_q3 : quantile [5, 5, 5] (3/4) = 5 := by
  rw [quantile,
    show List.insertionSort (fun a b => a ≤ b) [(5:ℚ), 5, 5] = [5, 5, 5] from rfl]
  norm_num [interpAt, show Int.toNat 1 = 1 from rfl]

theorem quantile_exSingle (p : ℚ) : quantile [7] p = 7 := by
  rw [quantile, show List.insertionSort (fun a b => a ≤ b) [(7:ℚ)] = [7] from rfl]
  rw [show ((([(7:ℚ)].length : ℕ)) : ℚ) - 1 = 0 from by norm_num, mul_zero]
  norm_num [interpAt]

theorem quantile_exTwo_q1 : quantile [1, 2] (1/4) = 5/4 := by
  rw [quantile, show List.insertionSort (fun a b => a ≤ b) [(1:ℚ), 2] = [1, 2] from rfl]
  norm_num [interpAt]

theorem quantile_exTwo_med : quantile [1, 2] (1/2) = 3/2 := by
  rw [quantile, show List.insertionSort (fun a b => a ≤ b) [(1:ℚ), 2] = [1, 2] from rfl]
  norm_num [interpAt]

theorem quantile_exTwo_q3 : quantile [1, 2] (3/4) = 7/4 := by
  rw [quantile, show List.insertionSort (fun a b => a ≤ b) [(1:ℚ), 2] = [1, 2] from rfl]
  norm_num [interpAt]

theorem iqr_outliers_exOutlier :
    iqr_outliers exOutlier = (some 70, [⟨"E", some 1000⟩]) := by
  have hc : iqr_cutoff [10, 20, 30, 40, 1000] = 70 := by
    rw [iqr_cutoff, quantile_exOutlier_q1, quantile_exOutlier_q3]; norm_num
  rw [iqr_outliers, show dropna exOutlier = [10, 20, 30, 40, 1000] from rfl, hc]
  rfl

theorem iqr_outliers_exConstant : iqr_outliers exConstant = (some 5, []) := by
  have hc : iqr_cutoff [5, 5, 5] = 5 := by
    rw [iqr_cutoff, quantile_exConstant_q1, quantile_exConstant_q3]; norm_num
  rw [iqr_outliers, show dropna exConstant = [5, 5, 5] from rfl, hc]
  rfl

theorem interp_exOutlier :
    interpretation_univariate exOutlier =
      some ⟨30, 20, 40, 10, 1000, none,
        [("A", 10), ("B", 20), ("C", 30)],
        [("C", 30), ("D", 40), ("E", 1000)]⟩ := by
  rw [interpretation_univariate,
    show dropna exOutlier = [10, 20, 30, 40, 1000] from rfl,
    if_neg (by decide)]
  simp only [Option.some.injEq, SummaryResult.mk.injEq]
  refine ⟨quantile_exOutlier_med, quantile_exOutlier_q1, quantile_exOutlier_q3,
    rfl, rfl, ?_, rfl, rfl⟩
  rw [show listMin [(10:ℚ), 20, 30, 40, 1000] = 10 from rfl,
    show listMax [(10:ℚ), 20, 30, 40, 1000] = 1000 from rfl]
  norm_num [ratioGate]

theorem interp_exSingle :
    interpretation_univariate exSingle =
      some ⟨7, 7, 7, 7, 7, none, [("A", 7)], [("A", 7)]⟩ := by
  rw [interpretation_univariate, show dropna exSingle = [7] from rfl,
    if_neg (by decide)]
  simp only [Option.some.injEq, SummaryResult.mk.injEq]
  refine ⟨quantile_exSingle _, quantile_exSingle _, quantile_exSingle _,
    rfl, rfl, ?_, rfl, rfl⟩
  rw [show listMin [(7:ℚ)] = 7 from rfl, show listMax [(7:ℚ)] = 7 from rfl]
  norm_num [ratioGate]

theorem interp_exTwo :
    interpretation_univariate exTwo =
      some ⟨3/2, 5/4, 7/4, 1, 2, some 2,
        [("A", 1), ("B", 2)], [("A", 1), ("B", 2)]⟩ := by
  rw [interpretation_univariate, show dropna exTwo = [1, 2] from rfl,
    if_neg (by decide)]
  simp only [Option.some.injEq, SummaryResult.mk.injEq]
  refine ⟨quantile_exTwo_med, quantile_exTwo_q1, quantile_exTwo_q3,
    rfl, rfl, ?_, rfl, rfl⟩
  rw [show listMin [(1:ℚ), 2] = 1 from rfl, show listMax [(1:ℚ), 2] = 2 from rfl]
  norm_num [ratioGate]

/-! Characterization of the outlier detector. -/

theorem iqr_outliers_eq {df : List Row} (hne : dropna df ≠ []) :
    iqr_outliers df =
      (some (iqr_cutoff (dropna df)),
        df.filter (fun r =>
          match r.value with
          | some v => decide (iqr_cutoff (dropna df) < v)
          | none => false)) := by
  rw [iqr_outliers, if_neg]
  intro hh
  exact hne (List.isEmpty_eq_true.mp hh)

theorem iqr_outliers_mem {df : List Row} (hne : dropna df ≠ []) (r : Row) :
    r ∈ (iqr_outliers df).2 ↔
      r ∈ df ∧ ∃ v : ℚ, r.value = some v ∧ iqr_cutoff (dropna df) < v := by
  rw [iqr_outliers_eq hne]
  simp only [List.mem_filter]
  constructor
  · rintro ⟨hr, hp⟩
    refine ⟨hr, ?_⟩
    cases hv : r.value with
    | none => rw [hv] at hp; simp at hp
    | some v =>
      rw [hv] at hp
      exact ⟨v, rfl, of_decide_eq_true hp⟩
  · rintro ⟨hr, v, hv, hlt⟩
    refine ⟨hr, ?_⟩
    rw [hv]
    exact decide_eq_true hlt

theorem iqr_cutoff_exOutlier : iqr_cutoff (dropna exOutlier) = 70 := by
  rw [show dropna exOutlier = [10, 20, 30, 40, 1000] from rfl, iqr_cutoff,
    quantile_exOutlier_q1, quantile_exOutlier_q3]
  norm_num

/-! Claim theorems. -/

/-- C1: the Outlier Detector first drops missing values; if any remain it sets
cutoff `= Q3 + 1.5·(Q3 − Q1)` over the non-missing values and returns as
outliers exactly the rows of the full input table whose value is strictly
greater than the cutoff (no low-tail rule: membership is equivalent to the
single high-tail comparison).  On `[(A,10),(B,20),(C,30),(D,40),(E,1000)]` the
cutoff is 70 and the outlier set is exactly `[(E,1000)]`. -/
theorem C1_iqr_outlier_rule :
    (∀ df : List Row, dropna df ≠ [] →
      (iqr_outliers df).1 =
        some (quantile (dropna df) (3/4) +
          (3/2) * (quantile (dropna df) (3/4) - quantile (dropna df) (1/4))) ∧
      ∀ r : Row, r ∈ (iqr_outliers df).2 ↔
        r ∈ df ∧ ∃ v : ℚ, r.value = some v ∧ iqr_cutoff (dropna df) < v) ∧
    iqr_outliers exOutlier = (some 70, [⟨"E", some 1000⟩]) := by
  constructor
  · intro df hne
    constructor
    · rw [iqr_outliers_eq hne, iqr_cutoff]
    · exact iqr_outliers_mem hne
  · exact iqr_outliers_exOutlier

/-- Witness for C1 at the concrete spec table: the row `(E,1000)` satisfies
the membership characterization. -/
theorem C1_witness : (⟨"E", some 1000⟩ : Row) ∈ (iqr_outliers exOutlier).2 := by
  have h := (C1_iqr_outlier_rule.1 exOutlier (by decide)).2 ⟨"E", some 1000⟩
  refine h.mpr ⟨by decide, 1000, rfl, ?_⟩
  rw [iqr_cutoff_exOutlier]
  decide

/-- C2: on an input whose values are all missing, the Summary Statistics
Engine returns its "no data" sentinel (`none`; the page then shows the fixed
`no_data_message`) and the Outlier Detector returns the undefined cutoff
(`none`) with an empty outlier set; no statistic is computed. -/
theorem C2_all_missing (df : List Row) (h : ∀ r ∈ df, r.value = none) :
    interpretation_univariate df = none ∧ iqr_outliers df = (none, []) := by
  have hd : dropna df = [] := by
    rw [dropna, List.filterMap_eq_nil_iff]
    exact h
  constructor
  · rw [interpretation_univariate, hd]
    rfl
  · rw [iqr_outliers, hd]
    rfl

/-- Witness for C2 at the spec table `[(A,absent),(B,absent)]`. -/
theorem C2_witness :
    interpretation_univariate exMissing = none ∧
      iqr_outliers exMissing = (none, []) :=
  C2_all_missing exMissing (by decide)

/-- C4: when `Q1 = Q3`, the cutoff equals `Q3`, the IQR is 0, and the
outlier set is exactly the rows whose value strictly exceeds `Q3`; no division
occurs anywhere in the computation.  On the constant table `[(A,5),(B,5),(C,5)]`
the cutoff is 5 and the outlier set is empty. -/
theorem C4_degenerate_distribution :
    (∀ df : List Row, dropna df ≠ [] →
      quantile (dropna df) (1/4) = quantile (dropna df) (3/4) →
      (iqr_outliers df).1 = some (quantile (dropna df) (3/4)) ∧
      quantile (dropna df) (3/4) - quantile (dropna df) (1/4) = 0 ∧
      ∀ r : Row, r ∈ (iqr_outliers df).2 ↔
        r ∈ df ∧ ∃ v : ℚ, r.value = some v ∧ quantile (dropna df) (3/4) < v) ∧
    iqr_outliers exConstant = (some 5, []) := by
  constructor
  · intro df hne heq
    have hc : iqr_cutoff (dropna df) = quantile (dropna df) (3/4) := by
      rw [iqr_cutoff, ← heq]
      ring
    refine ⟨?_, by rw [heq]; ring, ?_⟩
    · rw [iqr_outliers_eq hne, hc]
    · intro r
      rw [iqr_outliers_mem hne r, hc]
  · exact iqr_outliers_exConstant

/-- Witness for C4 at the constant table: `Q1 = Q3 = 5` and the cutoff is
exactly `Q3`. -/
theorem C4_witness :
    (iqr_outliers exConstant).1 = some (quantile (dropna exConstant) (3/4)) := by
  have h := (C4_degenerate_distribution.1 exConstant (by decide)
    (by rw [show dropna exConstant = [5, 5, 5] from rfl, quantile_exConstant_q1,
      quantile_exConstant_q3])).1
  exact h

/-- C10 (implicit): every row in the outlier set has a non-missing value —
a row whose value is `none` is never flagged, because the strict comparison
with the cutoff is false for a missing value. -/
theorem C10_outliers_not_missing (df : List Row) (r : Row)
    (h : r ∈ (iqr_outliers df).2) : r.value.isSome := by
  rw [iqr_outliers] at h
  by_cases hd : (dropna df).isEmpty
  · rw [if_pos hd] at h
    simp at h
  · rw [if_neg hd] at h
    simp only [List.mem_filter] at h
    cases hv : r.value with
    | none => rw [hv] at h; simp at h
    | some v => rfl

/-- Witness for C10: the flagged row `(E,1000)` of the spec table indeed has a
non-missing value. -/
theorem C10_witness : (⟨"E", some 1000⟩ : Row).value.isSome := by
  have h : (⟨"E", some 1000⟩ : Row) ∈ (iqr_outliers exOutlier).2 := by
    rw [iqr_outliers_exOutlier]
    decide
  exact C10_outliers_not_missing exOutlier _ h

/-- C3: the Bucket Classifier evaluates `x ≥ q3` first ("Top 25%"), then
`x ≤ q1` ("Bottom 25%"), else "Middle"; every value receives exactly one of
the three labels, and when `q1 = q3` the "Middle" label is unreachable. -/
theorem C3_bucket_partition :
    ∀ q1 q3 x : ℚ,
      (bucket q1 q3 x = "Top 25%" ∨ bucket q1 q3 x = "Bottom 25%" ∨
        bucket q1 q3 x = "Middle") ∧
      (bucket q1 q3 x = "Top 25%" ↔ q3 ≤ x) ∧
      (bucket q1 q3 x = "Bottom 25%" ↔ x < q3 ∧ x ≤ q1) ∧
      (bucket q1 q3 x = "Middle" ↔ q1 < x ∧ x < q3) ∧
      (q1 = q3 → bucket q1 q3 x ≠ "Middle") := by
  intro q1 q3 x
  rw [bucket]
  split_ifs with h1 h2
  · refine ⟨Or.inl rfl, ⟨fun _ => h1, fun _ => rfl⟩, ⟨?_, ?_⟩, ⟨?_, ?_⟩, fun _ => by decide⟩
    · intro hh; exact absurd hh (by decide)
    · rintro ⟨hlt, _⟩; linarith
    · intro hh; exact absurd hh (by decide)
    · rintro ⟨_, hlt⟩; linarith
  · push_neg at h1
    refine ⟨Or.inr (Or.inl rfl), ⟨?_, ?_⟩, ⟨fun _ => ⟨h1, h2⟩, fun _ => rfl⟩, ⟨?_, ?_⟩,
      fun _ => by decide⟩
    · intro hh; exact absurd hh (by decide)
    · intro hh; linarith
    · intro hh; exact absurd hh (by decide)
    · rintro ⟨hlt, _⟩; linarith
  · push_neg at h1 h2
    refine ⟨Or.inr (Or.inr rfl), ⟨?_, ?_⟩, ⟨?_, ?_⟩, ⟨fun _ => ⟨h2, h1⟩, fun _ => rfl⟩, ?_⟩
    · intro hh; exact absurd hh (by decide)
    · intro hh; linarith
    · intro hh; exact absurd hh (by decide)
    · rintro ⟨_, hle⟩; linarith
    · intro heq; exfalso; rw [heq] at h2; linarith

/-- Witness for C3 at `q1 = q3 = 0`, `x = 0`: the value resolves to
"Top 25%" and "Middle" is unreachable. -/
theorem C3_witness :
    bucket 0 0 0 = "Top 25%" ∧ bucket 0 0 0 ≠ "Middle" := by
  have h := C3_bucket_partition 0 0 0
  exact ⟨(h.2.1).mpr le_rfl, h.2.2.2.2 rfl⟩

/-- The ratio gate in isolation: `ratioGate a b = some x` iff `a > 0` and
`x = b / a` lies in the display window `(1, 10]`. -/
theorem ratioGate_spec (a b x : ℚ) :
    ratioGate a b = some x ↔ 0 < a ∧ x = b / a ∧ 1 < x ∧ x ≤ 10 := by
  rw [ratioGate]
  split_ifs with h1 h2
  · simp only [Option.some.injEq]
    constructor
    · rintro rfl
      exact ⟨h1, rfl, h2.1, h2.2⟩
    · rintro ⟨_, rfl, _⟩
      rfl
  · refine iff_of_false (by simp) ?_
    rintro ⟨_, hx, h1x, h10x⟩
    subst hx
    exact h2 ⟨h1x, h10x⟩
  · refine iff_of_false (by simp) ?_
    rintro ⟨ha, _⟩
    exact h1 ha

/-- C5: the max/min ratio is computed only when `min > 0` and exposed iff
`1 < ratio ≤ 10`; for the single-row table `[(A,7)]` the ratio equals `7/7 = 1`
and is omitted. -/
theorem C5_ratio_window :
    (∀ (df : List Row) (res : SummaryResult),
      interpretation_univariate df = some res →
      ∀ x : ℚ, (res.ratioValue = some x ↔
        0 < res.vmin ∧ x = res.vmax / res.vmin ∧ 1 < x ∧ x ≤ 10)) ∧
    interpretation_univariate exSingle =
      some ⟨7, 7, 7, 7, 7, none, [("A", 7)], [("A", 7)]⟩ ∧
    (7:ℚ) / 7 = 1 := by
  refine ⟨?_, interp_exSingle, by norm_num⟩
  intro df res h x
  rw [interpretation_univariate] at h
  by_cases hd : (dropna df).isEmpty
  · rw [if_pos hd] at h
    exact absurd h (by simp)
  · rw [if_neg hd] at h
    rw [Option.some.injEq] at h
    rw [← h]
    exact ratioGate_spec _ _ x

/-- Witness for C5 at the table `[(A,1),(B,2)]`: `min = 1 > 0`,
`ratio = 2 ∈ (1, 10]`, and the ratio is exposed. -/
theorem C5_witness :
    (⟨3/2, 5/4, 7/4, 1, 2, some 2,
      [("A", 1), ("B", 2)], [("A", 1), ("B", 2)]⟩ : SummaryResult).ratioValue =
      some 2 := by
  have h := (C5_ratio_window.1 exTwo _ interp_exTwo 2).mpr
    ⟨by norm_num, by norm_num, by norm_num, by norm_num⟩
  exact h

/-- C9: for every non-empty numeric sequence, the quartiles computed by the
linear-interpolation quantile method satisfy `Q1 ≤ median ≤ Q3`; stated on the
summary result, whose `q1`/`median`/`q3` fields are exactly the `quantile`
calls shared with the Outlier Detector. -/
theorem C9_quartile_order (df : List Row) (res : SummaryResult)
    (h : interpretation_univariate df = some res) :
    res.q1 ≤ res.median ∧ res.median ≤ res.q3 := by
  rw [interpretation_univariate] at h
  by_cases hd : (dropna df).isEmpty
  · rw [if_pos hd] at h
    exact absurd h (by simp)
  · rw [if_neg hd] at h
    rw [Option.some.injEq] at h
    have hne : dropna df ≠ [] := by
      intro hh
      rw [hh] at hd
      exact hd rfl
    rw [← h]
    exact ⟨quantile_mono hne (by norm_num) (by norm_num) (by norm_num),
      quantile_mono hne (by norm_num) (by norm_num) (by norm_num)⟩

/-- Witness for C9 at `[(A,1),(B,2)]`: `Q1 = 5/4 ≤ median = 3/2 ≤ Q3 = 7/4`. -/
theorem C9_witness : ((5:ℚ)/4 ≤ 3/2) ∧ ((3:ℚ)/2 ≤ 7/4) :=
  C9_quartile_order exTwo _ interp_exTwo

/-- C7: the top-3/bottom-3 selection sorts the non-missing rows ascending by
value; bottom 3 = first three rows of the sorted table, top 3 = last three
rows, each of length `min 3 n`; on the two-row table `[(A,1),(B,2)]` the two
selections coincide (overlap with fewer than six rows). -/
theorem C7_top_bottom_selection :
    (∀ (df : List Row) (res : SummaryResult),
      interpretation_univariate df = some res →
      List.Sorted (fun a b : String × ℚ => a.2 ≤ b.2) (sortedPairs df) ∧
      res.bottom3 = (sortedPairs df).take 3 ∧
      res.top3 = (sortedPairs df).drop ((sortedPairs df).length - 3) ∧
      res.bottom3.length = min 3 (sortedPairs df).length ∧
      res.top3.length = min 3 (sortedPairs df).length) ∧
    (interpretation_univariate exTwo =
        some ⟨3/2, 5/4, 7/4, 1, 2, some 2,
          [("A", 1), ("B", 2)], [("A", 1), ("B", 2)]⟩ ∧
      (⟨3/2, 5/4, 7/4, 1, 2, some 2,
          [("A", 1), ("B", 2)], [("A", 1), ("B", 2)]⟩ : SummaryResult).top3 =
        (⟨3/2, 5/4, 7/4, 1, 2, some 2,
          [("A", 1), ("B", 2)], [("A", 1), ("B", 2)]⟩ : SummaryResult).bottom3) := by
  constructor
  · intro df res h
    rw [interpretation_univariate] at h
    by_cases hd : (dropna df).isEmpty
    · rw [if_pos hd] at h
      exact absurd h (by simp)
    · rw [if_neg hd] at h
      rw [Option.some.injEq] at h
      rw [← h]
      refine ⟨?_, rfl, rfl, ?_, ?_⟩
      · rw [sortedPairs]
        haveI ht : IsTotal (String × ℚ) (fun a b => a.2 ≤ b.2) :=
          ⟨fun a b => le_total a.2 b.2⟩
        haveI htr : IsTrans (String × ℚ) (fun a b => a.2 ≤ b.2) :=
          ⟨fun a b c hab hbc => le_trans hab hbc⟩
        exact List.sorted_insertionSort _ _
      · show ((sortedPairs df).take 3).length = _
        rw [List.length_take]
      · show ((sortedPairs df).drop ((sortedPairs df).length - 3)).length = _
        rw [List.length_drop]
        omega
  · exact ⟨interp_exTwo, rfl⟩

/-- Witness for C7 at `[(A,1),(B,2)]`: the bottom-3 selection is the whole
two-row sorted table. -/
theorem C7_witness :
    (⟨3/2, 5/4, 7/4, 1, 2, some 2,
        [("A", 1), ("B", 2)], [("A", 1), ("B", 2)]⟩ : SummaryResult).bottom3 =
      (sortedPairs exTwo).take 3 :=
  (C7_top_bottom_selection.1 exTwo _ interp_exTwo).2.1

/-- Counterexample to C6 as stated: the canonical name `is_medical_desert`
appears in none of the four themes of `THEME_VARS` (though it does have a
display label), so it is not true that each of the twelve names maps to
exactly one theme. -/
theorem C6_counterexample :
    themeCount "is_medical_desert" = 0 ∧ labelCount "is_medical_desert" = 1 := by
  exact ⟨rfl, rfl⟩

/-- C6 (amended): each of the twelve canonical names maps to exactly one
display label; of the twelve, the eleven names other than `is_medical_desert`
map to exactly one theme among the four themes, while `is_medical_desert`
appears in no theme. -/
theorem C6_catalog_mapping :
    (∀ v ∈ CANONICAL_NAMES, labelCount v = 1) ∧
    (∀ v ∈ CANONICAL_NAMES, v ≠ "is_medical_desert" → themeCount v = 1) ∧
    themeCount "is_medical_desert" = 0 ∧
    THEME_VARS.map (fun p => p.1) =
      ["Capacity and access", "Population and daytime presence",
        "Social barriers", "Heat and climate"] := by
  refine ⟨by decide, by decide, rfl, rfl⟩

/-- Witness for C6 at `hospitals_per_10k`: one label and one theme. -/
theorem C6_witness :
    labelCount "hospitals_per_10k" = 1 ∧ themeCount "hospitals_per_10k" = 1 :=
  ⟨C6_catalog_mapping.1 "hospitals_per_10k" (by decide),
    C6_catalog_mapping.2.1 "hospitals_per_10k" (by decide) (by decide)⟩

/-- C8: for any canonical name outside the fixed catalog, the label lookup
falls back to the raw name and the Narrative Selector returns the generic
fallback bundle, whose three texts are all non-empty; in particular the
unknown name "foo" yields the fallback bundle and its own raw label. -/
theorem C8_unknown_variable_fallback :
    (∀ v : String, v ∉ CANONICAL_NAMES →
      varLabel v = v ∧ explain v = fallbackBundle) ∧
    fallbackBundle.whatItMeasures ≠ "" ∧
    fallbackBundle.whyItMatters ≠ "" ∧
    fallbackBundle.modelingRelevance ≠ "" ∧
    explain "foo" = fallbackBundle ∧
    varLabel "foo" = "foo" := by
  refine ⟨?_, by decide, by decide, by decide, rfl, rfl⟩
  intro v hv
  simp only [CANONICAL_NAMES, List.mem_cons, List.not_mem_nil, or_false] at hv
  push_neg at hv
  obtain ⟨h1, h2, h3, h4, h5, h6, h7, h8, h9, h10, h11, h12⟩ := hv
  constructor
  · rw [varLabel]
    have hf : VAR_LABELS.find? (fun p => p.1 == v) = none := by
      rw [List.find?_eq_none]
      intro x hx
      simp only [VAR_LABELS, List.mem_cons, List.not_mem_nil, or_false] at hx
      rcases hx with rfl | rfl | rfl | rfl | rfl | rfl | rfl | rfl | rfl | rfl | rfl | rfl <;>
        simp only [beq_iff_eq] <;>
        first
          | exact fun hc => h1 hc.symm
          | exact fun hc => h2 hc.symm
          | exact fun hc => h3 hc.symm
          | exact fun hc => h4 hc.symm
          | exact fun hc => h5 hc.symm
          | exact fun hc => h6 hc.symm
          | exact fun hc => h7 hc.symm
          | exact fun hc => h8 hc.symm
          | exact fun hc => h9 hc.symm
          | exact fun hc => h10 hc.symm
          | exact fun hc => h11 hc.symm
          | exact fun hc => h12 hc.symm
    rw [hf]
    rfl
  · have e1 : var_explanation v =
        "County-level summary for the metric shown on the chart." := by
      rw [var_explanation, if_neg h1, if_neg h2, if_neg h3, if_neg h4, if_neg h5,
        if_neg (fun hor => hor.elim h6 (fun hor2 => hor2.elim h7 h8)),
        if_neg h9, if_neg h10, if_neg h11]
    have e2 : relevance_text v =
        "This metric captures one aspect of county-level risk or capacity that interacts with heat conditions." := by
      rw [relevance_text, if_neg h1, if_neg h2, if_neg h3, if_neg h4, if_neg h5,
        if_neg h6, if_neg h7, if_neg h8, if_neg h9, if_neg h10, if_neg h11]
    have e3 : model_use_text v =
        "- This variable can be included as a county-level feature after appropriate scaling or standardisation." := by
      rw [model_use_text,
        if_neg (fun hor => hor.elim h1 (fun g => g.elim h2 (fun g2 => g2.elim h3 h5))),
        if_neg (fun hor => hor.elim h6 (fun g => g.elim h7 h8)),
        if_neg (fun hor => hor.elim h9 h10),
        if_neg (fun hor => hor.elim h4 h11)]
    rw [explain, e1, e2, e3]
    rfl

/-- Witness for C8 at the unknown name "foo". -/
theorem C8_witness : varLabel "foo" = "foo" ∧ explain "foo" = fallbackBundle :=
  C8_unknown_variable_fallback.1 "foo" (by decide)

end EDA
